import Mathlib

/-!
Verification of the filter compiler in `store/postgres/src/filter.rs` of the
`graph-node` repository.

The compiler translates a recursive `StoreFilter` expression into a
parameterized SQL predicate attached to a `SELECT data FROM entities`
query.  The Rust function `store_filter_by_mode` is embedded below as a
Lean function over an explicit model of diesel's query-builder fragments:
a predicate is the interleaved sequence of literal SQL text pieces
(`sql("...")`) and typed bound parameters (`bind::<T,_>(v)`), and a boxed
query is modelled freely by the two ways the compiler extends it
(`query.filter(p)` and `query.or_filter(p)`).

Rust panics (`unwrap`, `expect`) are modelled by an explicit `panicked`
error constructor so that "never panics" is a provable statement rather
than a modelling assumption wherever the panic has a genuine failure
condition (the `BigDecimal::from_str(..).unwrap()` call).
-/

namespace Store

/-- Value is the closed set of storable scalar/composite value kinds
(`thegraph::data::store::Value`, declared outside the shown sources;
its variants are taken from the exhaustive matches in `filter.rs` and §3
of the spec).  The `Int` payload is a 32-bit signed integer in the
source and the `Float` payload a 32-bit float; neither claim below
depends on their width, so the integer is modelled as `Int` and the
float by its (uninterpreted) bit pattern. -/
inductive Value where
  | String (s : String)
  | Int (i : Int)
  | Float (bits : Nat)
  | Bool (b : Bool)
  | BigInt (i : Int)
  | Bytes (b : List Nat)
  | List (l : List Value)
  | Null

/-- StoreFilter is the recursive filter tree
(`thegraph::components::store::StoreFilter`), restricted to the ten
operators the compiler implements; the source's catch-all
`unimplemented!()` arm is for operators outside this enumeration.  The
Rust field `attribute` is a Lean keyword, hence `attr`. -/
inductive StoreFilter where
  | And (filters : List StoreFilter)
  | Or (filters : List StoreFilter)
  | Equal (attr : String) (value : Value)
  | Not (attr : String) (value : Value)
  | GreaterThan (attr : String) (value : Value)
  | LessThan (attr : String) (value : Value)
  | GreaterOrEqual (attr : String) (value : Value)
  | LessOrEqual (attr : String) (value : Value)
  | Contains (attr : String) (value : Value)
  | NotContains (attr : String) (value : Value)

/-- FilterMode mirrors the private `enum FilterMode { And, Or }`. -/
inductive FilterMode where
  | And
  | Or

/-- BigDecimal models the `bigdecimal::BigDecimal` crate type at its
boundary: an arbitrary-precision decimal `digits * 10 ^ (-scale)`. -/
structure BigDecimal where
  digits : Int
  scale : Int

/-- Frag is one piece of a diesel SQL expression: either a literal SQL
text fragment (`sql("...")`) or a typed bound parameter
(`bind::<Text|Integer|Float|Bool|Numeric, _>(v)`). -/
inductive Frag where
  | sql (s : String)
  | bindText (s : String)
  | bindInteger (i : Int)
  | bindFloat (bits : Nat)
  | bindBool (b : Bool)
  | bindNumeric (d : BigDecimal)

/-- Predicate is a boolean SQL expression fragment: a raw fragment list,
or diesel's `not(...)` applied to one (used by `NotContains` on lists). -/
inductive Predicate where
  | frags (fs : List Frag)
  | not (p : Predicate)

/-- Query models the diesel `BoxedSelectStatement` at the boundary the
compiler uses: an abstract base statement extended by `filter`
(AND-combination with the existing predicate) or `or_filter`
(OR-combination), exactly the two operations `add_filter` performs. -/
inductive Query where
  | base
  | filter (q : Query) (p : Predicate)
  | orFilter (q : Query) (p : Predicate)

/-- UnsupportedFilter is the compiler's only recoverable error: the
rejected operator's name and the offending value. -/
structure UnsupportedFilter where
  filter : String
  value : Value

/-- Failure is the result channel of the embedded compiler: either the
`UnsupportedFilter` error the Rust function returns in its `Result`, or
a Rust process abort (`unwrap` of `None`), modelled explicitly so that
absence of aborts is provable. -/
inductive Failure where
  | unsupported (u : UnsupportedFilter)
  | panicked (msg : String)

/-- digitChar renders one decimal digit as its ASCII character. -/
def digitChar (d : Nat) : Char := Char.ofNat (48 + d)

/-- charToDigit reads one ASCII decimal digit back, rejecting any other
character. -/
def charToDigit (c : Char) : Option Nat :=
  if 48 ≤ c.toNat ∧ c.toNat ≤ 57 then some (c.toNat - 48) else none

/-- parseDigitsAux folds a run of decimal digit characters into a number
most-significant-first, failing on any non-digit. -/
def parseDigitsAux : List Char → Nat → Option Nat
  | [], acc => some acc
  | c :: cs, acc =>
    match charToDigit c with
    | some d => parseDigitsAux cs (acc * 10 + d)
    | none => none

/-- parseDigits parses a non-empty run of decimal digit characters. -/
def parseDigits (cs : List Char) : Option Nat :=
  match cs with
  | [] => none
  | _ => parseDigitsAux cs 0

/-- natToDecimalString renders a natural number in decimal,
most-significant digit first. -/
def natToDecimalString (n : Nat) : String :=
  if n = 0 then "0" else String.mk (((Nat.digits 10 n).reverse).map digitChar)

/-- bigIntToString models `BigInt::to_string()` (the `Display`
implementation of the arbitrary-precision integer, declared outside the
shown sources): the usual signed decimal rendering. -/
def bigIntToString (i : Int) : String :=
  if i < 0 then "-" ++ natToDecimalString i.natAbs else natToDecimalString i.natAbs

/-- bigDecimalFromStr models `BigDecimal::from_str` at its boundary,
restricted to the signed integer decimal strings this compiler feeds it
(the library also accepts fractional and exponent forms, which never
arise here); any other input is rejected with `none`, which the caller
turns into the modelled `unwrap` abort. -/
def bigDecimalFromStr (s : String) : Option BigDecimal :=
  match s.data with
  | [] => none
  | c :: cs =>
    if c = '-' then (parseDigits cs).map (fun v => { digits := -(v : Int), scale := 0 })
    else (parseDigits (c :: cs)).map (fun v => { digits := (v : Int), scale := 0 })

/-- jsonEscapeChar is the JSON string escaping applied per character
(quote and backslash; the control-character escapes of the real encoder
never arise in the proofs below). -/
def jsonEscapeChar (c : Char) : List Char :=
  if c = '"' then ['\\', '"'] else if c = '\\' then ['\\', '\\'] else [c]

/-- jsonOfString renders a JSON string literal. -/
def jsonOfString (s : String) : String :=
  "\"" ++ String.mk ((s.data.map jsonEscapeChar).flatten) ++ "\""

/-- hexDigitChar renders one hexadecimal digit (lower-case). -/
def hexDigitChar (n : Nat) : Char :=
  if n < 10 then Char.ofNat (48 + n) else Char.ofNat (87 + n)

/-- byteToHex renders one byte as two hexadecimal digits. -/
def byteToHex (b : Nat) : List Char := [hexDigitChar (b / 16 % 16), hexDigitChar (b % 16)]

/-- bytesToString models the `Display` form of the `Bytes` scalar
(declared outside the shown sources): a `0x`-prefixed hex string, the
"serialized text form" of §4.2 of the spec. -/
def bytesToString (b : List Nat) : String :=
  "0x" ++ String.mk ((b.map byteToHex).flatten)

/-- jsonOfBytes models `serde_json::to_string` of a `Bytes` value: its
display form as a JSON string literal. -/
def jsonOfBytes (b : List Nat) : String := "\"" ++ bytesToString b ++ "\""

mutual
/-- jsonOfValue models `serde_json::to_string` of a `Value` (the
`Serialize` implementation is declared outside the shown sources):
canonical JSON, rendering lists in element order.  The decimal rendering
of a float is outside the model; it is represented injectively by the
bit pattern. -/
def jsonOfValue : Value → String
  | .Null => "null"
  | .Bool true => "true"
  | .Bool false => "false"
  | .Int i => bigIntToString i
  | .BigInt i => bigIntToString i
  | .Float bits => "<f32:" ++ natToDecimalString bits ++ ">"
  | .String s => jsonOfString s
  | .Bytes b => jsonOfBytes b
  | .List l => "[" ++ jsonOfValueListInner l ++ "]"

/-- jsonOfValueListInner renders list elements separated by commas, in
order. -/
def jsonOfValueListInner : List Value → String
  | [] => ""
  | [v] => jsonOfValue v
  | v :: rest => jsonOfValue v ++ "," ++ jsonOfValueListInner rest
end

/-- jsonOfValueList models `serde_json::to_string` of the `Vec<Value>`
payload of a `List` value: a JSON array in element order. -/
def jsonOfValueList (l : List Value) : String := "[" ++ jsonOfValueListInner l ++ "]"

/-- add_filter embeds the Rust `add_filter`: attach a predicate to the
query with the combinator selected by the mode. -/
def add_filter (query : Query) (filter_mode : FilterMode) (predicate : Predicate) : Query :=
  match filter_mode with
  | .And => .filter query predicate
  | .Or => .orFilter query predicate

/-- equality_filter embeds the shared `Equal`/`Not` arm of
`store_filter_by_mode` (after the destructuring that picks `op` as "="
or "!="): dispatch on the value variant to choose cast and bound
parameter.  The `BigInt` arm goes through the decimal string
representation and `BigDecimal::from_str(..).unwrap()`, whose `None`
case is the modelled abort. -/
def equality_filter (query : Query) (filter_mode : FilterMode) (attr : String) (op : String)
    (value : Value) : Except Failure Query :=
  match value with
  | .String query_value =>
    .ok (add_filter query filter_mode (.frags
      [.sql "(", .sql "data ->> ", .bindText attr, .sql ")", .sql op, .bindText query_value]))
  | .Float query_value =>
    .ok (add_filter query filter_mode (.frags
      [.sql "(", .sql "data ->> ", .bindText attr, .sql ")", .sql "::float", .sql op,
       .bindFloat query_value]))
  | .Int query_value =>
    .ok (add_filter query filter_mode (.frags
      [.sql "(data ->> ", .bindText attr, .sql ")", .sql "::int", .sql op,
       .bindInteger query_value]))
  | .Bool query_value =>
    .ok (add_filter query filter_mode (.frags
      [.sql "(data ->> ", .bindText attr, .sql ")", .sql "::boolean", .sql op,
       .bindBool query_value]))
  | .Null =>
    .ok (add_filter query filter_mode (.frags
      [.sql "data -> ", .bindText attr, .sql " = 'null' "]))
  | .List query_value =>
    .ok (add_filter query filter_mode (.frags
      [.sql "data ->> ", .bindText attr, .sql op, .bindText (jsonOfValueList query_value)]))
  | .Bytes query_value =>
    .ok (add_filter query filter_mode (.frags
      [.sql "(data ->> ", .bindText attr, .sql op, .bindText (jsonOfBytes query_value)]))
  | .BigInt query_value =>
    match bigDecimalFromStr (bigIntToString query_value) with
    | some d =>
      .ok (add_filter query filter_mode (.frags
        [.sql "(data ->> ", .bindText attr, .sql ")", .sql "::numeric", .sql op,
         .bindNumeric d]))
    | none => .error (.panicked "called Option::unwrap() on a None value")

/-- ordering_filter embeds the shared arm of `store_filter_by_mode` for
the four ordering operators (after the destructuring that picks `op` as
">", "<", ">=" or "<="). -/
def ordering_filter (query : Query) (filter_mode : FilterMode) (attr : String) (op : String)
    (value : Value) : Except Failure Query :=
  match value with
  | .String query_value =>
    .ok (add_filter query filter_mode (.frags
      [.sql "data ->> ", .bindText attr, .sql op, .bindText query_value]))
  | .Float query_value =>
    .ok (add_filter query filter_mode (.frags
      [.sql "(data ->> ", .bindText attr, .sql ")", .sql "::float", .sql op,
       .bindFloat query_value]))
  | .Int query_value =>
    .ok (add_filter query filter_mode (.frags
      [.sql "(data ->> ", .bindText attr, .sql ")", .sql "::int", .sql op,
       .bindInteger query_value]))
  | .BigInt query_value =>
    match bigDecimalFromStr (bigIntToString query_value) with
    | some d =>
      .ok (add_filter query filter_mode (.frags
        [.sql "(data ->> ", .bindText attr, .sql ")", .sql "::numeric", .sql op,
         .bindNumeric d]))
    | none => .error (.panicked "called Option::unwrap() on a None value")
  | .Null => .error (.unsupported { filter := op, value := .Null })
  | .Bool b => .error (.unsupported { filter := op, value := .Bool b })
  | .List l => .error (.unsupported { filter := op, value := .List l })
  | .Bytes b => .error (.unsupported { filter := op, value := .Bytes b })

mutual
/-- store_filter_by_mode embeds the Rust `store_filter_by_mode`:
`And`/`Or` fold over their children (children of `And` always in AND
mode, children of `Or` always in OR mode), leaves dispatch on operator
and value variant. -/
def store_filter_by_mode (query : Query) (filter : StoreFilter) (filter_mode : FilterMode) :
    Except Failure Query :=
  match filter with
  | .And filters => store_filter_fold query filters .And
  | .Or filters => store_filter_fold query filters .Or
  | .Contains attr value =>
    match value with
    | .String query_value =>
      .ok (add_filter query filter_mode (.frags
        [.sql "data ->> ", .bindText attr, .sql " LIKE ", .bindText query_value]))
    | .Bytes query_value =>
      .ok (add_filter query filter_mode (.frags
        [.sql "data ->> ", .bindText attr, .sql " LIKE ", .bindText (bytesToString query_value)]))
    | .List query_value =>
      .ok (add_filter query filter_mode (.frags
        [.sql "data ->> ", .bindText attr, .sql " @> ", .bindText (jsonOfValueList query_value)]))
    | .Null => .error (.unsupported { filter := "contains", value := .Null })
    | .Float f => .error (.unsupported { filter := "contains", value := .Float f })
    | .Int i => .error (.unsupported { filter := "contains", value := .Int i })
    | .Bool b => .error (.unsupported { filter := "contains", value := .Bool b })
    | .BigInt i => .error (.unsupported { filter := "contains", value := .BigInt i })
  | .Equal attr value => equality_filter query filter_mode attr "=" value
  | .Not attr value => equality_filter query filter_mode attr "!=" value
  | .GreaterThan attr value => ordering_filter query filter_mode attr ">" value
  | .LessThan attr value => ordering_filter query filter_mode attr "<" value
  | .GreaterOrEqual attr value => ordering_filter query filter_mode attr ">=" value
  | .LessOrEqual attr value => ordering_filter query filter_mode attr "<=" value
  | .NotContains attr value =>
    match value with
    | .String query_value =>
      .ok (add_filter query filter_mode (.frags
        [.sql "data ->> ", .bindText attr, .sql " NOT LIKE ", .bindText query_value]))
    | .Bytes query_value =>
      .ok (add_filter query filter_mode (.frags
        [.sql "data ->> ", .bindText attr, .sql " NOT LIKE ",
         .bindText (bytesToString query_value)]))
    | .List query_value =>
      .ok (add_filter query filter_mode (.not (.frags
        [.sql "data ->> ", .bindText attr, .sql " @> ", .bindText (jsonOfValueList query_value)])))
    | .Null => .error (.unsupported { filter := "not_contains", value := .Null })
    | .Float f => .error (.unsupported { filter := "not_contains", value := .Float f })
    | .Int i => .error (.unsupported { filter := "not_contains", value := .Int i })
    | .Bool b => .error (.unsupported { filter := "not_contains", value := .Bool b })
    | .BigInt i => .error (.unsupported { filter := "not_contains", value := .BigInt i })

/-- store_filter_fold embeds the `try_fold` over a composite node's
children: thread the accumulated query left to right, stopping at the
first error. -/
def store_filter_fold (query : Query) (filters : List StoreFilter) (m : FilterMode) :
    Except Failure Query :=
  match filters with
  | [] => .ok query
  | f :: rest =>
    match store_filter_by_mode query f m with
    | .ok q2 => store_filter_fold q2 rest m
    | .error e => .error e
end

/-- store_filter embeds the public `store_filter`: compile the tree in
AND mode against the given query. -/
def store_filter (query : Query) (filter : StoreFilter) : Except Failure Query :=
  store_filter_by_mode query filter FilterMode.And

/-- isPanicResult recognises the modelled Rust abort among compile
results. -/
def isPanicResult : Except Failure Query → Bool
  | .error (.panicked _) => true
  | _ => false

/-- charToDigit reads back what digitChar wrote. -/
theorem charToDigit_digitChar (d : Nat) (hd : d < 10) :
    charToDigit (digitChar d) = some d := by
  interval_cases d <;> decide

/-- parseDigitsAux on a rendered digit run computes the
most-significant-first fold. -/
theorem parseDigitsAux_map (M : List Nat) (hM : ∀ d ∈ M, d < 10) :
    ∀ acc, parseDigitsAux (M.map digitChar) acc = some (M.foldl (fun a d => a * 10 + d) acc) := by
  induction M with
  | nil => intro acc; rfl
  | cons d M ih =>
    intro acc
    have hd : d < 10 := hM d (List.mem_cons_self d M)
    simp only [List.map_cons, parseDigitsAux, charToDigit_digitChar d hd, List.foldl_cons]
    exact ih (fun x hx => hM x (List.mem_cons_of_mem d hx)) (acc * 10 + d)

/-- foldr with Horner step computes ofDigits on a little-endian digit
list. -/
theorem foldr_mul_add_eq_ofDigits (L : List Nat) :
    L.foldr (fun d a => a * 10 + d) 0 = Nat.ofDigits 10 L := by
  induction L with
  | nil => simp [Nat.ofDigits_nil]
  | cons d L ih =>
    simp only [List.foldr_cons, Nat.ofDigits_cons, ih]
    omega

/-- parseDigits agrees with its auxiliary on non-empty input. -/
theorem parseDigits_of_ne_nil (cs : List Char) (h : cs ≠ []) :
    parseDigits cs = parseDigitsAux cs 0 := by
  cases cs with
  | nil => exact absurd rfl h
  | cons c cs2 => rfl

/-- parseDigits inverts natToDecimalString. -/
theorem parseDigits_natToDecimalString (n : Nat) :
    parseDigits (natToDecimalString n).data = some n := by
  by_cases h : n = 0
  · subst h; decide
  · rw [natToDecimalString, if_neg h]
    have hne : Nat.digits 10 n ≠ [] := Nat.digits_ne_nil_iff_ne_zero.mpr h
    have hlt : ∀ d ∈ (Nat.digits 10 n).reverse, d < 10 := by
      intro d hd
      exact Nat.digits_lt_base (by norm_num) (List.mem_reverse.mp hd)
    have hmapne : ((Nat.digits 10 n).reverse).map digitChar ≠ [] := by
      simp [hne]
    show parseDigits (((Nat.digits 10 n).reverse).map digitChar) = some n
    rw [parseDigits_of_ne_nil _ hmapne, parseDigitsAux_map _ hlt 0]
    congr 1
    rw [List.foldl_reverse]
    exact (foldr_mul_add_eq_ofDigits (Nat.digits 10 n)).trans (Nat.ofDigits_digits 10 n)

/-- parseDigits succeeds only when the first character is a digit, so
never when it is the minus sign. -/
theorem parseDigits_head_ne_dash (c : Char) (cs : List Char) (n : Nat)
    (h : parseDigits (c :: cs) = some n) : c ≠ '-' := by
  intro hc
  subst hc
  have h1 : charToDigit '-' = none := by decide
  rw [parseDigits_of_ne_nil _ (by simp)] at h
  simp [parseDigitsAux, h1] at h

/-- bigDecimalFromStr inverts bigIntToString: parsing the decimal
rendering of an integer recovers exactly that integer at scale 0, at
any magnitude. -/
theorem bigDecimalFromStr_bigIntToString (i : Int) :
    bigDecimalFromStr (bigIntToString i) = some { digits := i, scale := 0 } := by
  by_cases hi : i < 0
  · have hdata : (bigIntToString i).data = '-' :: (natToDecimalString i.natAbs).data := by
      rw [bigIntToString, if_pos hi, String.data_append]
      rfl
    simp [bigDecimalFromStr, hdata, parseDigits_natToDecimalString]
    rw [abs_of_neg hi]
    ring
  · have hstr : bigIntToString i = natToDecimalString i.natAbs := by
      rw [bigIntToString, if_neg hi]
    have hp := parseDigits_natToDecimalString i.natAbs
    obtain ⟨c, cs, hdata⟩ : ∃ c cs, (natToDecimalString i.natAbs).data = c :: cs := by
      cases hd : (natToDecimalString i.natAbs).data with
      | nil => rw [hd] at hp; simp [parseDigits] at hp
      | cons c cs => exact ⟨c, cs, rfl⟩
    have hp2 : parseDigits (c :: cs) = some i.natAbs := by rw [← hdata]; exact hp
    have hc : c ≠ '-' := parseDigits_head_ne_dash c cs _ hp2
    have habs : ((i.natAbs : Int)) = i := by omega
    rw [hstr]
    simp [bigDecimalFromStr, hdata, if_neg hc, hp2, habs]

/-- equality_filter never hits the modelled abort: the only candidate,
`BigDecimal::from_str(..).unwrap()` on a `BigInt`, always parses. -/
theorem equality_filter_no_panic (q : Query) (fm : FilterMode) (a op : String) (v : Value) :
    isPanicResult (equality_filter q fm a op v) = false := by
  cases v <;> simp [equality_filter, isPanicResult, bigDecimalFromStr_bigIntToString]

/-- ordering_filter never hits the modelled abort. -/
theorem ordering_filter_no_panic (q : Query) (fm : FilterMode) (a op : String) (v : Value) :
    isPanicResult (ordering_filter q fm a op v) = false := by
  cases v <;> simp [ordering_filter, isPanicResult, bigDecimalFromStr_bigIntToString]

mutual
/-- store_filter_by_mode never hits the modelled abort. -/
theorem store_filter_by_mode_no_panic (f : StoreFilter) (q : Query) (m : FilterMode) :
    isPanicResult (store_filter_by_mode q f m) = false := by
  cases f with
  | And fs => simpa [store_filter_by_mode] using store_filter_fold_no_panic fs q .And
  | Or fs => simpa [store_filter_by_mode] using store_filter_fold_no_panic fs q .Or
  | Equal a v => simpa [store_filter_by_mode] using equality_filter_no_panic q m a "=" v
  | Not a v => simpa [store_filter_by_mode] using equality_filter_no_panic q m a "!=" v
  | GreaterThan a v => simpa [store_filter_by_mode] using ordering_filter_no_panic q m a ">" v
  | LessThan a v => simpa [store_filter_by_mode] using ordering_filter_no_panic q m a "<" v
  | GreaterOrEqual a v => simpa [store_filter_by_mode] using ordering_filter_no_panic q m a ">=" v
  | LessOrEqual a v => simpa [store_filter_by_mode] using ordering_filter_no_panic q m a "<=" v
  | Contains a v => cases v <;> simp [store_filter_by_mode, isPanicResult]
  | NotContains a v => cases v <;> simp [store_filter_by_mode, isPanicResult]

/-- store_filter_fold never hits the modelled abort. -/
theorem store_filter_fold_no_panic (fs : List StoreFilter) (q : Query) (m : FilterMode) :
    isPanicResult (store_filter_fold q fs m) = false := by
  cases fs with
  | nil => simp [store_filter_fold, isPanicResult]
  | cons f rest =>
    have hf := store_filter_by_mode_no_panic f q m
    rw [store_filter_fold]
    cases hr : store_filter_by_mode q f m with
    | ok q2 => exact store_filter_fold_no_panic rest q2 m
    | error e =>
      rw [hr] at hf
      exact hf
end

/-- orderingUnsupported marks the value variants the four ordering
operators reject. -/
def orderingUnsupported : Value → Bool
  | .Null => true
  | .Bool _ => true
  | .List _ => true
  | .Bytes _ => true
  | _ => false

/-- containsUnsupported marks the value variants the containment
operators reject. -/
def containsUnsupported : Value → Bool
  | .Null => true
  | .Float _ => true
  | .Int _ => true
  | .Bool _ => true
  | .BigInt _ => true
  | _ => false

/-- LeafOp enumerates the eight leaf operators, to state properties
uniformly over the non-composite filter nodes. -/
inductive LeafOp where
  | equal
  | notEqual
  | greaterThan
  | lessThan
  | greaterOrEqual
  | lessOrEqual
  | contains
  | notContains

/-- mkLeaf builds the leaf filter node of a leaf operator. -/
def mkLeaf : LeafOp → String → Value → StoreFilter
  | .equal, a, v => .Equal a v
  | .notEqual, a, v => .Not a v
  | .greaterThan, a, v => .GreaterThan a v
  | .lessThan, a, v => .LessThan a v
  | .greaterOrEqual, a, v => .GreaterOrEqual a v
  | .lessOrEqual, a, v => .LessOrEqual a v
  | .contains, a, v => .Contains a v
  | .notContains, a, v => .NotContains a v

/-- composite builds the And or Or node selected by a mode, to state
the propagation claim uniformly over both composite constructors. -/
def composite : FilterMode → List StoreFilter → StoreFilter
  | .And, fs => .And fs
  | .Or, fs => .Or fs

/-- bindParamCount counts the bound parameters in a fragment list. -/
def bindParamCount (fs : List Frag) : Nat :=
  (fs.filter fun f => match f with | .sql _ => false | _ => true).length

/-- fragSql renders the literal SQL text of one fragment, a `$`
placeholder standing for a bound parameter. -/
def fragSql : Frag → String
  | .sql s => s
  | _ => "$"

/-- sqlOfFrags renders the SQL text of a whole fragment list. -/
def sqlOfFrags (fs : List Frag) : String := String.join (fs.map fragSql)

/-- parenBalancedAux scans characters keeping the open-parenthesis
depth. -/
def parenBalancedAux : List Char → Nat → Bool
  | [], depth => depth == 0
  | c :: cs, depth =>
    if c = '(' then parenBalancedAux cs (depth + 1)
    else if c = ')' then
      match depth with
      | 0 => false
      | d + 1 => parenBalancedAux cs d
    else parenBalancedAux cs depth

/-- parenBalanced decides whether the parentheses of a rendered SQL
text are balanced. -/
def parenBalanced (s : String) : Bool := parenBalancedAux s.data 0

/-- equality_filter on a BigInt always succeeds, casting with
`::numeric` and binding the decimal parsed back from the string
rendering. -/
theorem equality_filter_bigint (q : Query) (fm : FilterMode) (a op : String) (i : Int) :
    equality_filter q fm a op (.BigInt i)
      = .ok (add_filter q fm (.frags [.sql "(data ->> ", .bindText a, .sql ")", .sql "::numeric",
          .sql op, .bindNumeric { digits := i, scale := 0 }])) := by
  simp [equality_filter, bigDecimalFromStr_bigIntToString]

/-- ordering_filter on a BigInt always succeeds, casting with
`::numeric` and binding the decimal parsed back from the string
rendering. -/
theorem ordering_filter_bigint (q : Query) (fm : FilterMode) (a op : String) (i : Int) :
    ordering_filter q fm a op (.BigInt i)
      = .ok (add_filter q fm (.frags [.sql "(data ->> ", .bindText a, .sql ")", .sql "::numeric",
          .sql op, .bindNumeric { digits := i, scale := 0 }])) := by
  simp [ordering_filter, bigDecimalFromStr_bigIntToString]

/-- store_filter_fold is the left-to-right monadic fold of the
compilation step over the children, threading the accumulated query. -/
theorem store_filter_fold_eq_foldlM (fs : List StoreFilter) (q : Query) (m : FilterMode) :
    store_filter_fold q fs m = fs.foldlM (fun acc f => store_filter_by_mode acc f m) q := by
  induction fs generalizing q with
  | nil => rfl
  | cons f rest ih =>
    rw [store_filter_fold, List.foldlM_cons]
    cases hr : store_filter_by_mode q f m with
    | ok q2 => exact ih q2
    | error e => rfl

/-- store_filter_fold over `pre ++ f :: post` propagates the error on
`f` unchanged when `pre` succeeds, without looking at `post`. -/
theorem store_filter_fold_append_error (cm : FilterMode) (f : StoreFilter)
    (post : List StoreFilter) (u : UnsupportedFilter) :
    ∀ (pre : List StoreFilter) (q q2 : Query),
      store_filter_fold q pre cm = .ok q2 →
      store_filter_by_mode q2 f cm = .error (.unsupported u) →
      store_filter_fold q (pre ++ f :: post) cm = .error (.unsupported u) := by
  intro pre
  induction pre with
  | nil =>
    intro q q2 hpre hf
    have hq : q = q2 := by
      have h2 : (Except.ok q : Except Failure Query) = .ok q2 := hpre
      exact Except.ok.inj h2
    subst hq
    rw [List.nil_append, store_filter_fold, hf]
  | cons p pre ih =>
    intro q q2 hpre hf
    rw [store_filter_fold] at hpre
    rw [List.cons_append, store_filter_fold]
    cases hp : store_filter_by_mode q p cm with
    | ok qmid =>
      rw [hp] at hpre
      exact ih qmid q2 hpre hf
    | error e =>
      rw [hp] at hpre
      exact absurd hpre (by simp)

/-- C1: for every query and every filter tree built from the ten
enumerated operators paired with any Value variant, `store_filter`
returns either `Ok` with an extended query or `Err (UnsupportedFilter)`;
it never panics (the modelled abort of
`BigDecimal::from_str(..).unwrap()` is unreachable). -/
theorem store_filter_ok_or_unsupported (q : Query) (f : StoreFilter) :
    (∃ q2, store_filter q f = .ok q2) ∨
    (∃ u, store_filter q f = .error (.unsupported u)) := by
  have h := store_filter_by_mode_no_panic f q .And
  cases hr : store_filter_by_mode q f .And with
  | ok q2 => exact Or.inl ⟨q2, hr⟩
  | error e =>
    cases e with
    | unsupported u => exact Or.inr ⟨u, hr⟩
    | panicked msg =>
      rw [hr] at h
      simp [isPanicResult] at h

/-- C2: every ordering filter (GreaterThan, LessThan, GreaterOrEqual,
LessOrEqual) on a Bool, List, Bytes, or Null value returns
`Err (UnsupportedFilter)` whose filter field is the operator's symbol
and whose value field is the offending value, without coercion. -/
theorem ordering_on_unorderable_unsupported (a : String) (v : Value) (q : Query)
    (h : orderingUnsupported v = true) :
    store_filter q (.GreaterThan a v) = .error (.unsupported { filter := ">", value := v }) ∧
    store_filter q (.LessThan a v) = .error (.unsupported { filter := "<", value := v }) ∧
    store_filter q (.GreaterOrEqual a v) = .error (.unsupported { filter := ">=", value := v }) ∧
    store_filter q (.LessOrEqual a v) = .error (.unsupported { filter := "<=", value := v }) := by
  cases v <;>
    first
      | exact ⟨rfl, rfl, rfl, rfl⟩
      | simp [orderingUnsupported] at h

/-- Witness for C2 at the spec's example `GreaterThan("flag", Bool true)`. -/
theorem ordering_on_unorderable_unsupported_witness :
    orderingUnsupported (.Bool true) = true ∧
    store_filter .base (.GreaterThan "flag" (.Bool true))
      = .error (.unsupported { filter := ">", value := .Bool true }) :=
  ⟨rfl, (ordering_on_unorderable_unsupported "flag" (.Bool true) .base rfl).1⟩

/-- C3: every Contains filter on a Null, Float, Int, Bool, or BigInt
value returns `Err (UnsupportedFilter)` with filter "contains" and the
rejected value; every NotContains filter on such a value returns the
error with filter "not_contains" and the rejected value. -/
theorem contains_on_scalar_unsupported (a : String) (v : Value) (q : Query)
    (h : containsUnsupported v = true) :
    store_filter q (.Contains a v) = .error (.unsupported { filter := "contains", value := v }) ∧
    store_filter q (.NotContains a v)
      = .error (.unsupported { filter := "not_contains", value := v }) := by
  cases v <;>
    first
      | exact ⟨rfl, rfl⟩
      | simp [containsUnsupported] at h

/-- Witness for C3 at the spec's example `Contains("count", Int 5)`. -/
theorem contains_on_scalar_unsupported_witness :
    containsUnsupported (.Int 5) = true ∧
    store_filter .base (.Contains "count" (.Int 5))
      = .error (.unsupported { filter := "contains", value := .Int 5 }) ∧
    store_filter .base (.NotContains "count" (.Int 5))
      = .error (.unsupported { filter := "not_contains", value := .Int 5 }) :=
  ⟨rfl, (contains_on_scalar_unsupported "count" (.Int 5) .base rfl).1,
    (contains_on_scalar_unsupported "count" (.Int 5) .base rfl).2⟩

/-- C4: the top-level compile runs in AND mode; an `And` node is the
left-to-right monadic fold re-threading the query with each child
compiled in AND mode, an `Or` node the identical fold in OR mode (the
surrounding mode is ignored by composite nodes); and every leaf
compiled in AND mode attaches its predicate with the query's AND
combinator (`filter`) while the same leaf in OR mode attaches the same
predicate with the OR combinator (`or_filter`). -/
theorem compile_mode_and_fold_structure :
    (∀ (q : Query) (f : StoreFilter), store_filter q f = store_filter_by_mode q f .And) ∧
    (∀ (q : Query) (fs : List StoreFilter) (m : FilterMode),
      store_filter_by_mode q (.And fs) m
        = fs.foldlM (fun acc f => store_filter_by_mode acc f .And) q) ∧
    (∀ (q : Query) (fs : List StoreFilter) (m : FilterMode),
      store_filter_by_mode q (.Or fs) m
        = fs.foldlM (fun acc f => store_filter_by_mode acc f .Or) q) ∧
    (∀ (op : LeafOp) (a : String) (v : Value) (q : Query),
      (∃ p, store_filter_by_mode q (mkLeaf op a v) .And = .ok (.filter q p) ∧
            store_filter_by_mode q (mkLeaf op a v) .Or = .ok (.orFilter q p)) ∨
      (∃ e, store_filter_by_mode q (mkLeaf op a v) .And = .error e ∧
            store_filter_by_mode q (mkLeaf op a v) .Or = .error e)) := by
  refine ⟨fun q f => rfl, fun q fs m => store_filter_fold_eq_foldlM fs q .And,
    fun q fs m => store_filter_fold_eq_foldlM fs q .Or, ?_⟩
  intro op a v q
  cases op <;> cases v <;>
    first
      | exact Or.inl ⟨_, rfl, rfl⟩
      | exact Or.inr ⟨_, rfl, rfl⟩
      | exact Or.inl ⟨_, equality_filter_bigint _ _ _ _ _, equality_filter_bigint _ _ _ _ _⟩

/-- C5: every Equal, Not, GreaterThan, LessThan, GreaterOrEqual or
LessOrEqual filter on a BigInt casts the extracted field with
`::numeric` and binds the arbitrary-precision decimal obtained by
parsing the BigInt's decimal string rendering, which is exactly the
original value (digits = i, scale = 0) at any magnitude. -/
theorem bigint_numeric_cast_and_string_roundtrip (a : String) (i : Int) (q : Query)
    (m : FilterMode) :
    ∃ d : BigDecimal,
      bigDecimalFromStr (bigIntToString i) = some d ∧ d.digits = i ∧ d.scale = 0 ∧
      store_filter_by_mode q (.Equal a (.BigInt i)) m
        = .ok (add_filter q m (.frags [.sql "(data ->> ", .bindText a, .sql ")",
            .sql "::numeric", .sql "=", .bindNumeric d])) ∧
      store_filter_by_mode q (.Not a (.BigInt i)) m
        = .ok (add_filter q m (.frags [.sql "(data ->> ", .bindText a, .sql ")",
            .sql "::numeric", .sql "!=", .bindNumeric d])) ∧
      store_filter_by_mode q (.GreaterThan a (.BigInt i)) m
        = .ok (add_filter q m (.frags [.sql "(data ->> ", .bindText a, .sql ")",
            .sql "::numeric", .sql ">", .bindNumeric d])) ∧
      store_filter_by_mode q (.LessThan a (.BigInt i)) m
        = .ok (add_filter q m (.frags [.sql "(data ->> ", .bindText a, .sql ")",
            .sql "::numeric", .sql "<", .bindNumeric d])) ∧
      store_filter_by_mode q (.GreaterOrEqual a (.BigInt i)) m
        = .ok (add_filter q m (.frags [.sql "(data ->> ", .bindText a, .sql ")",
            .sql "::numeric", .sql ">=", .bindNumeric d])) ∧
      store_filter_by_mode q (.LessOrEqual a (.BigInt i)) m
        = .ok (add_filter q m (.frags [.sql "(data ->> ", .bindText a, .sql ")",
            .sql "::numeric", .sql "<=", .bindNumeric d])) :=
  ⟨{ digits := i, scale := 0 }, bigDecimalFromStr_bigIntToString i, rfl, rfl,
    equality_filter_bigint q m a "=" i, equality_filter_bigint q m a "!=" i,
    ordering_filter_bigint q m a ">" i, ordering_filter_bigint q m a "<" i,
    ordering_filter_bigint q m a ">=" i, ordering_filter_bigint q m a "<=" i⟩

/-- C6: Equal on Null compiles to the predicate that tests the raw
document field, extracted with the JSON accessor `data -> ` (not the
text accessor `data ->> `), against the literal `'null'`, with no cast;
the attribute is the only bound parameter, none is bound for the null
comparison. -/
theorem equal_null_raw_json_predicate (a : String) (q : Query) (m : FilterMode) :
    store_filter_by_mode q (.Equal a .Null) m
      = .ok (add_filter q m (.frags [.sql "data -> ", .bindText a, .sql " = 'null' "])) ∧
    bindParamCount [Frag.sql "data -> ", .bindText a, .sql " = 'null' "] = 1 :=
  ⟨rfl, rfl⟩

/-- C7: Equal and Not on a List value compile without any cast to a
text comparison of the extracted field against the JSON serialization
of the query list bound as a text parameter; the serialization
preserves element order, so the two orders of the spec's example bind
different strings and list equality is order-sensitive. -/
theorem list_equality_serialized_order_sensitive (a : String) (l : List Value) (q : Query)
    (m : FilterMode) :
    store_filter_by_mode q (.Equal a (.List l)) m
      = .ok (add_filter q m (.frags [.sql "data ->> ", .bindText a, .sql "=",
          .bindText (jsonOfValueList l)])) ∧
    store_filter_by_mode q (.Not a (.List l)) m
      = .ok (add_filter q m (.frags [.sql "data ->> ", .bindText a, .sql "!=",
          .bindText (jsonOfValueList l)])) ∧
    jsonOfValueList [.String "x", .String "y"] ≠ jsonOfValueList [.String "y", .String "x"] :=
  ⟨rfl, rfl, by decide⟩

/-- C8: inside an And or Or node, when the fold has threaded the query
successfully through a prefix of the children and the next child
compiles to an `UnsupportedFilter` error, the whole node compiles to
that exact error, unchanged, without touching the remaining children
and without returning any partially extended query. -/
theorem child_error_propagates_unchanged (cm m : FilterMode) (q q2 : Query)
    (pre : List StoreFilter) (f : StoreFilter) (post : List StoreFilter)
    (u : UnsupportedFilter)
    (hpre : store_filter_fold q pre cm = .ok q2)
    (hf : store_filter_by_mode q2 f cm = .error (.unsupported u)) :
    store_filter_by_mode q (composite cm (pre ++ f :: post)) m
      = .error (.unsupported u) := by
  have hnode : store_filter_by_mode q (composite cm (pre ++ f :: post)) m
      = store_filter_fold q (pre ++ f :: post) cm := by
    cases cm <;> rfl
  rw [hnode]
  exact store_filter_fold_append_error cm f post u pre q q2 hpre hf

/-- Witness for C8: an And node whose first child succeeds and whose
second child is the unsupported `GreaterThan` on a Bool. -/
theorem child_error_propagates_unchanged_witness :
    store_filter_fold .base [.Equal "a" (.String "1")] .And
      = .ok (.filter .base (.frags [.sql "(", .sql "data ->> ", .bindText "a", .sql ")",
          .sql "=", .bindText "1"])) ∧
    store_filter_by_mode (.filter .base (.frags [.sql "(", .sql "data ->> ", .bindText "a",
          .sql ")", .sql "=", .bindText "1"])) (.GreaterThan "b" (.Bool true)) .And
      = .error (.unsupported { filter := ">", value := .Bool true }) ∧
    store_filter_by_mode .base
        (composite .And ([.Equal "a" (.String "1")] ++ [.GreaterThan "b" (.Bool true)])) .And
      = .error (.unsupported { filter := ">", value := .Bool true }) :=
  ⟨rfl, rfl,
    child_error_propagates_unchanged .And .And .base
      (.filter .base (.frags [.sql "(", .sql "data ->> ", .bindText "a", .sql ")",
        .sql "=", .bindText "1"]))
      [.Equal "a" (.String "1")] (.GreaterThan "b" (.Bool true)) []
      { filter := ">", value := .Bool true } rfl rfl⟩

/-- C9 (code bug): Equal and Not on a Bytes value apply no SQL cast and
bind the serialized text form of the bytes as a text parameter, but the
emitted fragment list opens a parenthesis (`sql("(data ->> ")`) that is
never closed — unlike every sibling branch — so the rendered predicate
text is not balanced and the comparison is not well-formed SQL. -/
theorem bytes_equality_unbalanced_paren :
    (∀ (a : String) (b : List Nat) (q : Query) (m : FilterMode),
      store_filter_by_mode q (.Equal a (.Bytes b)) m
        = .ok (add_filter q m (.frags [.sql "(data ->> ", .bindText a, .sql "=",
            .bindText (jsonOfBytes b)])) ∧
      store_filter_by_mode q (.Not a (.Bytes b)) m
        = .ok (add_filter q m (.frags [.sql "(data ->> ", .bindText a, .sql "!=",
            .bindText (jsonOfBytes b)]))) ∧
    parenBalanced (sqlOfFrags [.sql "(data ->> ", .bindText "a", .sql "=",
      .bindText (jsonOfBytes [])]) = false :=
  ⟨fun a b q m => ⟨rfl, rfl⟩, by decide⟩

/-- C10: Not on Null compiles to exactly the same predicate as Equal on
Null — the Null branch of the equality/inequality dispatch ignores the
selected operator, so a negated null test behaves as a null-equality
test rather than its negation or an error. -/
theorem not_null_equals_equal_null (a : String) (q : Query) (m : FilterMode) :
    store_filter_by_mode q (.Not a .Null) m = store_filter_by_mode q (.Equal a .Null) m ∧
    store_filter_by_mode q (.Not a .Null) m
      = .ok (add_filter q m (.frags [.sql "data -> ", .bindText a, .sql " = 'null' "])) :=
  ⟨rfl, rfl⟩

end Store
